import Mathlib

/-!
# Verification of the temporal-ai-agent repository

Shallow embedding of the chat workflow (`src/workflows/workflow.go`,
`SayHelloWorkflow`), the HTTP gateway handlers (`api/main.go`) and the
environment helpers (`getEnv`, `getEnvBool`).

The workflow is modelled as a state machine over the three per-kind FIFO
signal queues that Temporal maintains for the named signal channels
(`user_prompt`, `confirm`, `end_chat`), the local `result` variable, a flag
recording whether the `for` loop has exited via `break` (after which the
workflow function returns `result` and the instance is complete), and the
trace of inputs passed to `ExecuteActivity(ctx, activities.Greet, ...)`.
Activity outcomes (success or failure of a Greet invocation) are supplied as
an oracle boolean per invocation.
-/

namespace TemporalAgent

/-- Modelled from the spec: the body of the Greet Activity
(`activities.Greet`) is not among the provided sources (only its callers
are). The spec defines it as the pure transform
`Greet(x) = "Hello, " + x + "!"`. -/
def Greet (x : String) : String := "Hello, " ++ x ++ "!"

/-- The three signal kinds the gateway can send and the workflow listens
for: `user_prompt`, `confirm` and `end_chat`, each carrying a string
message. -/
inductive Signal
  | userPrompt (message : String)
  | confirm (message : String)
  | endChat (message : String)
deriving DecidableEq, Repr

/-- State of one running `SayHelloWorkflow` instance inside its signal
loop: the three pending-signal queues (FIFO per channel), the `result`
variable, whether the loop has exited via `break` (the workflow function
then returns `result` and the instance is complete), and the trace of
inputs of the Greet Activity invocations issued so far. -/
structure WFState where
  userQ : List String
  confirmQ : List String
  endQ : List String
  result : String
  broke : Bool
  calls : List String
deriving DecidableEq, Repr

/-- Signal delivery (`client.SignalWorkflow` reaching the instance): append
the payload to the matching channel queue. A completed instance (loop
broke, workflow function returned) accepts no further signals: delivery to
it fails at the engine and the state is unchanged. -/
def enqueue (st : WFState) (s : Signal) : WFState :=
  if st.broke then st
  else
    match s with
    | .userPrompt m => { st with userQ := st.userQ ++ [m] }
    | .confirm m => { st with confirmQ := st.confirmQ ++ [m] }
    | .endChat m => { st with endQ := st.endQ ++ [m] }

/-- The termination check after each `selector.Select(ctx)`:
`if endChatChan.ReceiveAsync(&result) { break }`. The non-blocking probe
succeeds only when a payload is still pending on the `end_chat` queue; it
then receives the raw payload into `result` and the loop breaks. When the
queue is empty it returns false and leaves `result` alone. -/
def probeEnd (st : WFState) : WFState :=
  match st.endQ with
  | [] => st
  | m :: rest => { st with endQ := rest, result := m, broke := true }

/-- One iteration of the `for` loop in `SayHelloWorkflow`.
`selector.Select(ctx)` fires the callback of one ready channel; ties among
simultaneously ready channels are resolved here in registration order
(`user_prompt`, then `confirm`, then `end_chat`), which matters for none of
the theorems below (they instantiate states where at most one channel is
ready, except where any tie-break gives the same conclusion). `ok` is the
outcome of the Greet Activity invocation made by the fired callback: on
success the output is stored in `result`, on failure the error is logged
and `result` is kept. The `end_chat` callback makes no activity call; it
sets `result` to `"Chat ended: " + message` and its `return` statement
exits only the callback closure, so the iteration still falls through to
the `ReceiveAsync` probe. With no channel ready the selector stays
blocked and the state is unchanged. -/
def loopStep (st : WFState) (ok : Bool) : WFState :=
  if st.broke then st
  else
    match st.userQ with
    | m :: rest =>
        probeEnd { st with
          userQ := rest,
          calls := st.calls ++ [m],
          result := if ok then Greet m else st.result }
    | [] =>
      match st.confirmQ with
      | m :: rest =>
          probeEnd { st with
            confirmQ := rest,
            calls := st.calls ++ ["Confirmed: " ++ m],
            result := if ok then Greet ("Confirmed: " ++ m) else st.result }
      | [] =>
        match st.endQ with
        | m :: rest =>
            probeEnd { st with endQ := rest, result := "Chat ended: " ++ m }
        | [] => st

/-- `SayHelloWorkflow` up to its signal loop: the initial
`ExecuteActivity(ctx, activities.Greet, name)` call. On failure the
workflow returns `("", err)` immediately, so no live instance remains
(`none`). On success the loop starts waiting for signals with
`result = Greet name`, empty queues, and one recorded activity
invocation. -/
def sayHelloStart (name : String) (ok : Bool) : Option WFState :=
  if ok then
    some { userQ := [], confirmQ := [], endQ := [], result := Greet name,
           broke := false, calls := [name] }
  else none

/-- Sequential delivery of one signal: the signal is enqueued and the
blocked selector then runs exactly one loop iteration processing it, with
`ok` the outcome of any activity invocation that iteration makes. -/
def stepSeq (st : WFState) (sok : Signal × Bool) : WFState :=
  loopStep (enqueue st sok.1) sok.2

/-- Sequential delivery of a list of signals, each fully processed by the
loop before the next arrives. -/
def runSeq (st : WFState) (sigs : List (Signal × Bool)) : WFState :=
  sigs.foldl stepSeq st

/-- Any event that can touch an instance: a signal arriving from the
gateway, or the loop performing one iteration (with the given activity
outcome). -/
inductive Event
  | arrive (s : Signal)
  | iterate (ok : Bool)
deriving DecidableEq, Repr

/-- Effect of one event on the instance state. -/
def evStep (st : WFState) : Event → WFState
  | .arrive s => enqueue st s
  | .iterate ok => loopStep st ok

/-- The Waiting state of the control loop: the loop is live (not broken
out) and all three signal queues are empty, so the selector is blocked
waiting for the next signal. -/
def Waiting (st : WFState) : Prop :=
  st.broke = false ∧ st.userQ = [] ∧ st.confirmQ = [] ∧ st.endQ = []

/-- Whether a signal is `end_chat`. -/
def isEndChat : Signal → Bool
  | .endChat _ => true
  | _ => false

/-- The result the loop stores after processing one signal with a
successful activity invocation. -/
def lastExpected : Signal → String
  | .userPrompt m => Greet m
  | .confirm m => Greet ("Confirmed: " ++ m)
  | .endChat m => "Chat ended: " ++ m

/-! ## HTTP gateway (`api/main.go`) -/

/-- Request body of `POST /start-workflow`. Go JSON decoding leaves an
absent `message` field at its zero value, the empty string. -/
structure ChatRequest where
  message : String
deriving DecidableEq, Repr

/-- Request body of the three signal endpoints. Absent `run_id` or
`message` fields decode to the empty string. -/
structure SignalRequest where
  workflow_id : String
  run_id : String
  message : String
deriving DecidableEq, Repr

/-- What `handleStartWorkflow` does up to the engine boundary: either an
HTTP error written with `http.Error` (status code and plain-text body) and
an immediate return, or the `ExecuteWorkflow` engine call carrying the
request message as the workflow argument. The parsed body is `none` when
`json.NewDecoder(r.Body).Decode` fails. -/
inductive StartOutcome
  | httpError (status : Nat) (body : String)
  | executeWorkflow (message : String)
deriving DecidableEq, Repr

/-- `handleStartWorkflow`: invalid JSON yields 400 "Invalid JSON"; an empty
(or absent) `message` yields 400 "Message is required"; otherwise the
workflow is started with the message. -/
def handleStartWorkflow : Option ChatRequest → StartOutcome
  | none => .httpError 400 "Invalid JSON"
  | some req =>
    if req.message = "" then .httpError 400 "Message is required"
    else .executeWorkflow req.message

/-- What a signal handler does up to the engine boundary: an HTTP error and
immediate return, or the `SignalWorkflow` engine call with workflow id, run
id, signal name and payload. -/
inductive SignalOutcome
  | httpError (status : Nat) (body : String)
  | signalWorkflow (workflowID : String) (runID : String)
      (signalName : String) (payload : String)
deriving DecidableEq, Repr

/-- `handleUserPromptSignal`: invalid JSON yields 400 "Invalid JSON"; an
empty (or absent) `workflow_id` yields 400 "WorkflowID is required";
otherwise the `user_prompt` signal is sent with the request message as
payload. -/
def handleUserPromptSignal : Option SignalRequest → SignalOutcome
  | none => .httpError 400 "Invalid JSON"
  | some req =>
    if req.workflow_id = "" then .httpError 400 "WorkflowID is required"
    else .signalWorkflow req.workflow_id req.run_id "user_prompt" req.message

/-- `handleConfirmSignal`: same validation as `handleUserPromptSignal`,
sends the `confirm` signal. -/
def handleConfirmSignal : Option SignalRequest → SignalOutcome
  | none => .httpError 400 "Invalid JSON"
  | some req =>
    if req.workflow_id = "" then .httpError 400 "WorkflowID is required"
    else .signalWorkflow req.workflow_id req.run_id "confirm" req.message

/-- `handleEndChatSignal`: same validation as `handleUserPromptSignal`,
sends the `end_chat` signal. -/
def handleEndChatSignal : Option SignalRequest → SignalOutcome
  | none => .httpError 400 "Invalid JSON"
  | some req =>
    if req.workflow_id = "" then .httpError 400 "WorkflowID is required"
    else .signalWorkflow req.workflow_id req.run_id "end_chat" req.message

/-- JSON body a signal handler encodes once `SignalWorkflow` has returned:
on engine error, `success: false` with the error text (HTTP 500); on
success, `success: true`. -/
structure SignalResponse where
  success : Bool
  error : String
deriving DecidableEq, Repr

/-- Building the signal response from the engine call outcome (`none` means
`SignalWorkflow` returned no error). -/
def signalResponse : Option String → SignalResponse
  | some e => { success := false, error := e }
  | none => { success := true, error := "" }

/-! ## Environment helpers (`getEnv`, `getEnvBool`) -/

/-- `os.Getenv`: an unset variable reads as the empty string. The model
distinguishes unset (`none`) from set (`some v`) to state how the two are
related. -/
def osGetenv (v : Option String) : String := v.getD ""

/-- `getEnv`: return the variable when it reads as non-empty, the default
otherwise. -/
def getEnv (v : Option String) (defaultValue : String) : String :=
  let value := osGetenv v
  if value ≠ "" then value else defaultValue

/-- `strconv.ParseBool`: accepts exactly 1, t, T, TRUE, true, True and
0, f, F, FALSE, false, False; anything else is an error (`none`). -/
def parseBool : String → Option Bool
  | "1" => some true
  | "t" => some true
  | "T" => some true
  | "TRUE" => some true
  | "true" => some true
  | "True" => some true
  | "0" => some false
  | "f" => some false
  | "F" => some false
  | "FALSE" => some false
  | "false" => some false
  | "False" => some false
  | _ => none

/-- `getEnvBool`: when the variable reads as non-empty and parses as a
boolean, return the parsed value; otherwise (empty, unset, or unparseable)
return the default. -/
def getEnvBool (v : Option String) (defaultValue : Bool) : Bool :=
  let value := osGetenv v
  if value ≠ "" then
    match parseBool value with
    | some parsed => parsed
    | none => defaultValue
  else defaultValue

/-! ## Theorems -/

/-- From a Waiting state, sequentially delivering one non-end-chat signal
keeps the loop in Waiting for every activity outcome, and with a successful
activity invocation stores the expected transformed result. -/
theorem stepSeq_waiting (st : WFState) (hw : Waiting st) (s : Signal)
    (hs : isEndChat s = false) :
    (∀ ok, Waiting (stepSeq st (s, ok))) ∧
    (stepSeq st (s, true)).result = lastExpected s := by
  obtain ⟨hb, hu, hc, he⟩ := hw
  obtain ⟨uq, cq, eQ, r, br, cs⟩ := st
  cases s <;>
    simp_all [Waiting, stepSeq, enqueue, loopStep, probeEnd, lastExpected,
      isEndChat]

/-- C1: evaluation at the failing input. After a successful start with
"Hello World", delivering the single signal EndChat "Goodbye" leaves
`result = "Chat ended: Goodbye"` but the loop has NOT exited
(`broke = false`): the `return` in the end-chat callback exits only the
closure, and the `ReceiveAsync` probe finds the channel already drained.
A further UserPrompt "hi" is still accepted and overwrites the result, so
the instance neither terminated nor stopped accepting signals. -/
theorem C1_single_endchat_does_not_terminate :
    ∃ st : WFState, sayHelloStart "Hello World" true = some st ∧
      (runSeq st [(Signal.endChat "Goodbye", true)]).result
        = "Chat ended: Goodbye" ∧
      (runSeq st [(Signal.endChat "Goodbye", true)]).broke = false ∧
      (runSeq st [(Signal.endChat "Goodbye", true),
        (Signal.userPrompt "hi", true)]).result = Greet "hi" := by
  refine ⟨(⟨[], [], [], Greet "Hello World", false, ["Hello World"]⟩ : WFState),
    rfl, ?_, ?_, ?_⟩ <;> rfl

/-- C3: evaluation at the failing input. The start handler forwards the
message to `ExecuteWorkflow` and then blocks in `we.Get` until the workflow
run completes, returning the final run result. The run started with
"Hello World" has `result = Greet "Hello World"` after the greeting, but it
only completes when the `ReceiveAsync` probe fires: with two end-chat
signals buffered together the run completes with the raw payload "bye2" as
its final result, which is what the start request returns — not
`Greet "Hello World"`. -/
theorem C3_start_request_returns_final_run_result :
    handleStartWorkflow (some { message := "Hello World" })
      = StartOutcome.executeWorkflow "Hello World" ∧
    ∃ st : WFState, sayHelloStart "Hello World" true = some st ∧
      st.result = Greet "Hello World" ∧
      (loopStep (enqueue (enqueue st (Signal.endChat "bye1"))
        (Signal.endChat "bye2")) true).broke = true ∧
      (loopStep (enqueue (enqueue st (Signal.endChat "bye1"))
        (Signal.endChat "bye2")) true).result = "bye2" ∧
      "bye2" ≠ Greet "Hello World" := by
  refine ⟨rfl, (⟨[], [], [], Greet "Hello World", false, ["Hello World"]⟩ : WFState),
    rfl, rfl, rfl, rfl, ?_⟩
  decide

/-- C4 counterexample: when the initial greeting invocation fails, the
workflow returns `("", err)` — the instance terminates with an error and
never reaches the Waiting state, contrary to the claim that the failure is
absorbed and the loop transitions unconditionally to Waiting. -/
theorem C4_initial_failure_terminates :
    sayHelloStart "Hello World" false = none := rfl

/-- C4 amended: a failing Greet Activity invocation made inside the signal
loop leaves `result` unchanged and the loop running (for any live state
with no pending end-chat signal); the initial greeting invocation is the
exception — its failure ends the workflow with an error instead of
transitioning to Waiting. -/
theorem C4_loop_absorbs_activity_failures (st : WFState)
    (hb : st.broke = false) (he : st.endQ = []) :
    (loopStep st false).result = st.result ∧
    (loopStep st false).broke = false ∧
    (∀ name : String, sayHelloStart name false = none) := by
  obtain ⟨uq, cq, eQ, r, br, cs⟩ := st
  cases uq <;> cases cq <;>
    simp_all [loopStep, probeEnd, sayHelloStart]

/-- C4 witness: the amended statement applied at a concrete live state with
one pending user prompt. -/
theorem C4_loop_absorbs_activity_failures_witness :
    (loopStep (⟨["q"], [], [], "r1", false, []⟩ : WFState) false).result
      = ((⟨["q"], [], [], "r1", false, []⟩ : WFState) : WFState).result ∧
    (loopStep (⟨["q"], [], [], "r1", false, []⟩ : WFState) false).broke = false ∧
    (∀ name : String, sayHelloStart name false = none) :=
  C4_loop_absorbs_activity_failures _ rfl rfl

/-- C5: from the Waiting state, a UserPrompt m dispatch invokes the Greet
Activity with input m, a Confirm m dispatch invokes it with
"Confirmed: " + m; on success `result` becomes the activity output, on
failure the prior `result` is kept; in both cases the loop does not exit. -/
theorem C5_waiting_dispatch (st : WFState) (hw : Waiting st) (m : String)
    (ok : Bool) :
    (stepSeq st (Signal.userPrompt m, ok)).result
      = (if ok then Greet m else st.result) ∧
    (stepSeq st (Signal.userPrompt m, ok)).broke = false ∧
    (stepSeq st (Signal.userPrompt m, ok)).calls = st.calls ++ [m] ∧
    (stepSeq st (Signal.confirm m, ok)).result
      = (if ok then Greet ("Confirmed: " ++ m) else st.result) ∧
    (stepSeq st (Signal.confirm m, ok)).broke = false ∧
    (stepSeq st (Signal.confirm m, ok)).calls
      = st.calls ++ ["Confirmed: " ++ m] := by
  obtain ⟨hb, hu, hc, he⟩ := hw
  obtain ⟨uq, cq, eQ, r, br, cs⟩ := st
  simp_all [stepSeq, enqueue, loopStep, probeEnd]

/-- C5 witness: the dispatch behaviour at a concrete Waiting state with a
successful activity invocation. -/
theorem C5_waiting_dispatch_witness :
    (stepSeq (⟨[], [], [], "r0", false, []⟩ : WFState) (Signal.userPrompt "hello", true)).result
      = (if true then Greet "hello"
          else (⟨[], [], [], "r0", false, []⟩ : WFState).result) ∧
    (stepSeq (⟨[], [], [], "r0", false, []⟩ : WFState) (Signal.userPrompt "hello", true)).broke
      = false ∧
    (stepSeq (⟨[], [], [], "r0", false, []⟩ : WFState) (Signal.userPrompt "hello", true)).calls
      = ((⟨[], [], [], "r0", false, []⟩ : WFState) : WFState).calls ++ ["hello"] ∧
    (stepSeq (⟨[], [], [], "r0", false, []⟩ : WFState) (Signal.confirm "hello", true)).result
      = (if true then Greet ("Confirmed: " ++ "hello")
          else (⟨[], [], [], "r0", false, []⟩ : WFState).result) ∧
    (stepSeq (⟨[], [], [], "r0", false, []⟩ : WFState) (Signal.confirm "hello", true)).broke
      = false ∧
    (stepSeq (⟨[], [], [], "r0", false, []⟩ : WFState) (Signal.confirm "hello", true)).calls
      = ((⟨[], [], [], "r0", false, []⟩ : WFState) : WFState).calls
        ++ ["Confirmed: " ++ "hello"] :=
  C5_waiting_dispatch _ ⟨rfl, rfl, rfl, rfl⟩ "hello" true

/-- C7: dispatching the same Confirm m twice from the Waiting state invokes
the activity twice with the same input "Confirmed: " + m (recorded twice in
the call trace — not deduplicated); each dispatch leaves
`result = Greet ("Confirmed: " + m)`, and the second dispatch leaves
`result` exactly as it was after the first. -/
theorem C7_confirm_twice_idempotent (st : WFState) (hw : Waiting st)
    (m : String) :
    (stepSeq st (Signal.confirm m, true)).result
      = Greet ("Confirmed: " ++ m) ∧
    (stepSeq (stepSeq st (Signal.confirm m, true))
        (Signal.confirm m, true)).result = Greet ("Confirmed: " ++ m) ∧
    (stepSeq (stepSeq st (Signal.confirm m, true))
        (Signal.confirm m, true)).result
      = (stepSeq st (Signal.confirm m, true)).result ∧
    (stepSeq (stepSeq st (Signal.confirm m, true))
        (Signal.confirm m, true)).calls
      = st.calls ++ ["Confirmed: " ++ m, "Confirmed: " ++ m] := by
  obtain ⟨hb, hu, hc, he⟩ := hw
  obtain ⟨uq, cq, eQ, r, br, cs⟩ := st
  simp_all [stepSeq, enqueue, loopStep, probeEnd]

/-- C7 witness: the double-Confirm behaviour at a concrete Waiting state
with message "yes". -/
theorem C7_confirm_twice_idempotent_witness :
    (stepSeq (⟨[], [], [], "r0", false, []⟩ : WFState) (Signal.confirm "yes", true)).result
      = Greet ("Confirmed: " ++ "yes") ∧
    (stepSeq (stepSeq (⟨[], [], [], "r0", false, []⟩ : WFState)
        (Signal.confirm "yes", true)) (Signal.confirm "yes", true)).result
      = Greet ("Confirmed: " ++ "yes") ∧
    (stepSeq (stepSeq (⟨[], [], [], "r0", false, []⟩ : WFState)
        (Signal.confirm "yes", true)) (Signal.confirm "yes", true)).result
      = (stepSeq (⟨[], [], [], "r0", false, []⟩ : WFState) (Signal.confirm "yes", true)).result ∧
    (stepSeq (stepSeq (⟨[], [], [], "r0", false, []⟩ : WFState)
        (Signal.confirm "yes", true)) (Signal.confirm "yes", true)).calls
      = ((⟨[], [], [], "r0", false, []⟩ : WFState) : WFState).calls
        ++ ["Confirmed: " ++ "yes", "Confirmed: " ++ "yes"] :=
  C7_confirm_twice_idempotent _ ⟨rfl, rfl, rfl, rfl⟩ "yes"

/-- C2: for every non-empty sequence of UserPrompt and Confirm signals
delivered sequentially from a Waiting state (no EndChat among them), with
every activity invocation succeeding, the result after processing the
sequence is `Greet m` when the last signal was UserPrompt m, and
`Greet ("Confirmed: " + m)` when it was Confirm m — earlier signals are
overwritten, last-writer-wins. -/
theorem C2_last_writer_wins (sigs : List Signal) (st : WFState)
    (hw : Waiting st) (hne : sigs ≠ [])
    (hnoEnd : ∀ s ∈ sigs, isEndChat s = false) :
    (runSeq st (sigs.map (fun s => (s, true)))).result
      = lastExpected (sigs.getLast hne) := by
  induction sigs generalizing st with
  | nil => exact absurd rfl hne
  | cons a rest ih =>
    cases rest with
    | nil =>
      have h := stepSeq_waiting st hw a (hnoEnd a (by simp))
      simpa [runSeq, List.getLast] using h.2
    | cons b rest2 =>
      have h := stepSeq_waiting st hw a (hnoEnd a (by simp))
      have step : runSeq st ((a :: b :: rest2).map (fun s => (s, true)))
          = runSeq (stepSeq st (a, true))
              ((b :: rest2).map (fun s => (s, true))) := by
        simp [runSeq]
      rw [step, List.getLast_cons]
      exact ih (stepSeq st (a, true)) (h.1 true) (by simp)
        (fun s hs => hnoEnd s (List.mem_cons_of_mem a hs))

/-- C2 witness: UserPrompt "a" then Confirm "b" from a concrete Waiting
state ends with the result of the last signal. -/
theorem C2_last_writer_wins_witness :
    (runSeq (⟨[], [], [], "r0", false, []⟩ : WFState)
        ([Signal.userPrompt "a", Signal.confirm "b"].map (fun s => (s, true)))).result
      = lastExpected
          ([Signal.userPrompt "a", Signal.confirm "b"].getLast (by simp)) :=
  C2_last_writer_wins [Signal.userPrompt "a", Signal.confirm "b"] _
    ⟨rfl, rfl, rfl, rfl⟩ (by simp) (by decide)

/-- C6 counterexample: delivering a single EndChat signal from a Waiting
state consumes the signal (the end-chat queue is empty afterwards) without
setting the terminated flag — the false→true transition does not occur even
though an EndChat signal was consumed, contradicting the at-least-once part
of the claim. -/
theorem C6_endchat_consumed_without_termination :
    (stepSeq (⟨[], [], [], "r0", false, []⟩ : WFState)
        (Signal.endChat "bye", true)).broke = false ∧
    (stepSeq (⟨[], [], [], "r0", false, []⟩ : WFState)
        (Signal.endChat "bye", true)).endQ = [] := by
  exact ⟨rfl, rfl⟩

/-- C6 amended: the terminated flag transitions false→true at most once —
once set, every later event (signal arrival or loop iteration) leaves the
state unchanged — and it is set only by a loop iteration that finds a
pending end-chat payload; no signal arrival sets it. However, it is not
always set when an EndChat is consumed: an EndChat consumed by the dispatch
callback leaves the flag false. -/
theorem C6_terminated_at_most_once (st : WFState) (e : Event) :
    (st.broke = true → evStep st e = st) ∧
    (st.broke = false → (evStep st e).broke = true →
      (∃ ok, e = Event.iterate ok) ∧ st.endQ ≠ []) := by
  constructor
  · intro h
    cases e with
    | arrive s => cases s <;> simp [evStep, enqueue, h]
    | iterate ok => simp [evStep, loopStep, h]
  · intro hb h
    cases e with
    | arrive s =>
      exfalso
      obtain ⟨uq, cq, eQ, r, br, cs⟩ := st
      cases s <;> simp_all [evStep, enqueue]
    | iterate ok =>
      refine ⟨⟨ok, rfl⟩, ?_⟩
      intro hE
      obtain ⟨uq, cq, eQ, r, br, cs⟩ := st
      cases uq <;> cases cq <;> simp_all [evStep, loopStep, probeEnd]

/-- C6 amended witness: the absorbing part applied at a concrete already
terminated state receiving a late user prompt. -/
theorem C6_terminated_at_most_once_witness :
    evStep (⟨[], [], [], "done", true, []⟩ : WFState)
        (Event.arrive (Signal.userPrompt "x"))
      = (⟨[], [], [], "done", true, []⟩ : WFState) :=
  (C6_terminated_at_most_once _ _).1 rfl

/-- C8: an unparseable JSON body yields HTTP 400 with a plain-text body on
all four POST endpoints; a missing or empty message on /start-workflow
yields HTTP 400; a missing or empty workflow_id on any signal endpoint
yields HTTP 400 — in every case the handler returns an httpError outcome,
never an engine call. -/
theorem C8_gateway_validation :
    handleStartWorkflow none = StartOutcome.httpError 400 "Invalid JSON" ∧
    handleUserPromptSignal none
      = SignalOutcome.httpError 400 "Invalid JSON" ∧
    handleConfirmSignal none = SignalOutcome.httpError 400 "Invalid JSON" ∧
    handleEndChatSignal none = SignalOutcome.httpError 400 "Invalid JSON" ∧
    handleStartWorkflow (some { message := "" })
      = StartOutcome.httpError 400 "Message is required" ∧
    (∀ rid msg : String,
      handleUserPromptSignal
          (some { workflow_id := "", run_id := rid, message := msg })
        = SignalOutcome.httpError 400 "WorkflowID is required") ∧
    (∀ rid msg : String,
      handleConfirmSignal
          (some { workflow_id := "", run_id := rid, message := msg })
        = SignalOutcome.httpError 400 "WorkflowID is required") ∧
    (∀ rid msg : String,
      handleEndChatSignal
          (some { workflow_id := "", run_id := rid, message := msg })
        = SignalOutcome.httpError 400 "WorkflowID is required") := by
  refine ⟨rfl, rfl, rfl, rfl, rfl, ?_, ?_, ?_⟩ <;> intro rid msg <;> rfl

/-- C9: an environment variable set to the empty string behaves exactly
like an absent one — getEnv and getEnvBool both return the default — and a
set but unparseable boolean value makes getEnvBool silently fall back to
the default false. -/
theorem C9_env_fallbacks (d : String) (b : Bool) (v : String)
    (hv : parseBool v = none) :
    getEnv (some "") d = d ∧ getEnv none d = d ∧
    getEnvBool (some "") b = b ∧ getEnvBool none b = b ∧
    getEnvBool (some v) false = false := by
  refine ⟨rfl, rfl, rfl, rfl, ?_⟩
  by_cases hne : v = ""
  · subst hne; rfl
  · simp [getEnvBool, osGetenv, hne, hv]

/-- C9 witness: the fallback behaviour at default "fallback", default true,
and the unparseable boolean value "yes". -/
theorem C9_env_fallbacks_witness :
    getEnv (some "") "fallback" = "fallback" ∧
    getEnv none "fallback" = "fallback" ∧
    getEnvBool (some "") true = true ∧ getEnvBool none true = true ∧
    getEnvBool (some "yes") false = false :=
  C9_env_fallbacks "fallback" true "yes" rfl

/-- C10: the signal endpoints validate only workflow_id — with a non-empty
workflow_id, an absent message and an absent run_id raise no error: both
are forwarded to the engine as empty strings, and absent an engine failure
the encoded response is success true with no error text. -/
theorem C10_signal_forwards_empty_fields (wid : String) (h : wid ≠ "") :
    handleUserPromptSignal
        (some { workflow_id := wid, run_id := "", message := "" })
      = SignalOutcome.signalWorkflow wid "" "user_prompt" "" ∧
    handleConfirmSignal
        (some { workflow_id := wid, run_id := "", message := "" })
      = SignalOutcome.signalWorkflow wid "" "confirm" "" ∧
    handleEndChatSignal
        (some { workflow_id := wid, run_id := "", message := "" })
      = SignalOutcome.signalWorkflow wid "" "end_chat" "" ∧
    signalResponse none = { success := true, error := "" } := by
  simp [handleUserPromptSignal, handleConfirmSignal, handleEndChatSignal,
    signalResponse, h]

/-- C10 witness: the forwarding behaviour at the concrete workflow id
"chat-workflow-1". -/
theorem C10_signal_forwards_empty_fields_witness :
    handleUserPromptSignal
        (some { workflow_id := "chat-workflow-1", run_id := "", message := "" })
      = SignalOutcome.signalWorkflow "chat-workflow-1" "" "user_prompt" "" ∧
    handleConfirmSignal
        (some { workflow_id := "chat-workflow-1", run_id := "", message := "" })
      = SignalOutcome.signalWorkflow "chat-workflow-1" "" "confirm" "" ∧
    handleEndChatSignal
        (some { workflow_id := "chat-workflow-1", run_id := "", message := "" })
      = SignalOutcome.signalWorkflow "chat-workflow-1" "" "end_chat" "" ∧
    signalResponse none = { success := true, error := "" } :=
  C10_signal_forwards_empty_fields "chat-workflow-1" (by simp)

end TemporalAgent
